import Mathlib

/-!
# Shallow embedding of the HemoSim coagulation-cascade simulator

Embeds `src/scripts/coagulation_sim.py` (class `CoagulationSimulator`):
the species registry, the physiological baseline concentrations, the rate
constants, the derivative function `derivatives`, the scenario resolution
performed at the top of `simulate`, and the way `simulate` wraps the stiff
ODE solver's output into a `SimulationResult`.

Concentrations and rate constants are modelled as rationals (`ℚ`); the
Python floats 1e-2, 0.7, ... are written as the exact rationals they denote
in the source text.  The solver (`scipy.integrate.solve_ivp`) is external to
the repository and is modelled as an abstract function from a right-hand
side and an initial state to a `SolverOutput` record mirroring scipy's
result object (`t`, `y`, `success`).
-/

namespace HemoSim

/-- `CoagulationSimulator.SPECIES` (coagulation_sim.py lines 49-58):
the fixed ordered catalog of species names. -/
def SPECIES : List String :=
  ["TF", "VII", "TF_VIIa",
   "XII", "XIIa", "XI", "XIa", "IX", "IXa",
   "VIII", "VIIIa", "X", "Xa",
   "V", "Va", "II", "IIa",
   "Fbg", "Fibrin",
   "XIII", "XIIIa",
   "AT", "TFPI",
   "PC", "APC", "PS"]

/-- `self.n_species = len(self.SPECIES)`. -/
def n_species : Nat := SPECIES.length

/-- The state vector indexed by species position, mirroring the numpy
vector of length `n_species` (which computes to 26). -/
def State : Type := Fin 26 → ℚ

/-- Name of the species at a given index (the inverse direction of the
`species_idx` dictionary built in `__init__`). -/
def speciesAt (i : Fin 26) : String :=
  SPECIES.get (Fin.cast (by decide) i)

/-- Index constants, matching the positions in `SPECIES`. -/
def iTF : Fin 26 := ⟨0, by decide⟩
def iVII : Fin 26 := ⟨1, by decide⟩
def iTF_VIIa : Fin 26 := ⟨2, by decide⟩
def iXII : Fin 26 := ⟨3, by decide⟩
def iXIIa : Fin 26 := ⟨4, by decide⟩
def iXI : Fin 26 := ⟨5, by decide⟩
def iXIa : Fin 26 := ⟨6, by decide⟩
def iIX : Fin 26 := ⟨7, by decide⟩
def iIXa : Fin 26 := ⟨8, by decide⟩
def iVIII : Fin 26 := ⟨9, by decide⟩
def iVIIIa : Fin 26 := ⟨10, by decide⟩
def iX : Fin 26 := ⟨11, by decide⟩
def iXa : Fin 26 := ⟨12, by decide⟩
def iV : Fin 26 := ⟨13, by decide⟩
def iVa : Fin 26 := ⟨14, by decide⟩
def iII : Fin 26 := ⟨15, by decide⟩
def iIIa : Fin 26 := ⟨16, by decide⟩
def iFbg : Fin 26 := ⟨17, by decide⟩
def iFibrin : Fin 26 := ⟨18, by decide⟩
def iXIII : Fin 26 := ⟨19, by decide⟩
def iXIIIa : Fin 26 := ⟨20, by decide⟩
def iAT : Fin 26 := ⟨21, by decide⟩
def iTFPI : Fin 26 := ⟨22, by decide⟩
def iPC : Fin 26 := ⟨23, by decide⟩
def iAPC : Fin 26 := ⟨24, by decide⟩
def iPS : Fin 26 := ⟨25, by decide⟩

/-- `self.initial_concentrations` (lines 66-93): physiological baseline
initial concentrations in nM, as an association list in source order. -/
def initial_concentrations : List (String × ℚ) :=
  [("TF", 0), ("VII", 10), ("TF_VIIa", 0),
   ("XII", 375), ("XIIa", 0),
   ("XI", 30), ("XIa", 0),
   ("IX", 90), ("IXa", 0),
   ("VIII", 7/10), ("VIIIa", 0),
   ("X", 170), ("Xa", 0),
   ("V", 20), ("Va", 0),
   ("II", 1400), ("IIa", 0),
   ("Fbg", 9000), ("Fibrin", 0),
   ("XIII", 70), ("XIIIa", 0),
   ("AT", 3400), ("TFPI", 5/2),
   ("PC", 65), ("APC", 0), ("PS", 300)]

/-- `self.initial_concentrations.get(name, 0)`: baseline lookup with the
dictionary default 0 used by the warfarin and liver-disease branches. -/
def baselineOf (s : String) : ℚ :=
  (initial_concentrations.lookup s).getD 0

/-! ## Rate constants (`self.k`, lines 97-145) and Michaelis constants
(`self.Km`, lines 148-152), written as exact rationals. -/

def k_tf_viia_on : ℚ := 1/100
def k_tf_viia_off : ℚ := 1/10000
def k_tfviia_x : ℚ := 5/10000
def k_tfviia_ix : ℚ := 1/10000
def k_xii_auto : ℚ := 1/100000
def k_xiia_xi : ℚ := 5/10000
def k_xia_ix : ℚ := 1/1000
def k_tenase_x : ℚ := 1
def k_ptase_ii : ℚ := 10
def k_iia_fbg : ℚ := 1/10
def k_iia_xiii : ℚ := 5/100
def k_iia_v : ℚ := 5/10
def k_iia_viii : ℚ := 1
def k_iia_xi : ℚ := 1/100
def k_xa_v : ℚ := 1/100
def k_xa_viii : ℚ := 5/1000
def k_xa_ii_basal : ℚ := 1/10000
def k_at_iia : ℚ := 1/10000
def k_at_xa : ℚ := 5/100000
def k_at_ixa : ℚ := 1/100000
def k_at_xia : ℚ := 5/1000000
def k_tfpi_xa : ℚ := 1/10000
def k_tfpi_tfviia : ℚ := 5/10000
def k_iia_pc : ℚ := 1/10000
def k_apc_va : ℚ := 5/1000
def k_apc_viiia : ℚ := 1/100

def Km_tenase_x : ℚ := 160
def Km_ptase_ii : ℚ := 210
def Km_iia_fbg : ℚ := 7200

/-- The scenario modifier parameters read by `derivatives` via
`params.get(..., 1.0)` (lines 220-222).  In `simulate` the dictionary is
always created with all three keys present (line 377), so a record with
the three fields is a faithful model. -/
structure Params where
  at_factor : ℚ
  xa_inhibition : ℚ
  iia_inhibition : ℚ
deriving DecidableEq

/-- The defaults `{'at_factor': 1.0, 'xa_inhibition': 1.0, 'iia_inhibition': 1.0}`
set at line 377 of `simulate`. -/
def defaultParams : Params := ⟨1, 1, 1⟩

/-- Line 189, `y = np.maximum(y, 0)`: the non-negative local working copy
of the state (`np.maximum` allocates a new array; the caller's vector is
untouched). -/
def clamp (y : State) : State := fun i => max (y i) 0

/-! ## Reaction rates (lines 224-276), evaluated on the already-clamped
state `y`.  Each definition transcribes one `r_...` local of `derivatives`. -/

def r_tfviia_form (y : State) : ℚ := k_tf_viia_on * y iTF * y iVII
def r_tfviia_diss (y : State) : ℚ := k_tf_viia_off * y iTF_VIIa
def r_tfviia_x (y : State) : ℚ := k_tfviia_x * y iTF_VIIa * y iX
def r_tfviia_ix (y : State) : ℚ := k_tfviia_ix * y iTF_VIIa * y iIX
def r_xii_auto (y : State) : ℚ := k_xii_auto * y iXII
def r_xiia_xi (y : State) : ℚ := k_xiia_xi * y iXIIa * y iXI
def r_xia_ix (y : State) : ℚ := k_xia_ix * y iXIa * y iIX

/-- Line 240: `tenase_activity = IXa * VIIIa / (1 + VIIIa)`. -/
def tenase_activity (y : State) : ℚ := y iIXa * y iVIIIa / (1 + y iVIIIa)

/-- Line 241: `r_tenase_x = k['tenase_x'] * tenase_activity * X / (Km + X)`. -/
def r_tenase_x (y : State) : ℚ :=
  k_tenase_x * tenase_activity y * y iX / (Km_tenase_x + y iX)

/-- Line 245: `Xa_effective = Xa * xa_inhibition`. -/
def Xa_effective (y : State) (p : Params) : ℚ := y iXa * p.xa_inhibition

/-- Line 246: `ptase_activity = Xa_effective * Va / (1 + Va)`. -/
def ptase_activity (y : State) (p : Params) : ℚ :=
  Xa_effective y p * y iVa / (1 + y iVa)

/-- Line 247: `r_ptase_ii = k['ptase_ii'] * ptase_activity * II / (Km + II)`. -/
def r_ptase_ii (y : State) (p : Params) : ℚ :=
  k_ptase_ii * ptase_activity y p * y iII / (Km_ptase_ii + y iII)

/-- Line 251: `IIa_effective = IIa * iia_inhibition`. -/
def IIa_effective (y : State) (p : Params) : ℚ := y iIIa * p.iia_inhibition

def r_iia_fbg (y : State) (p : Params) : ℚ :=
  k_iia_fbg * IIa_effective y p * y iFbg / (Km_iia_fbg + y iFbg)
def r_iia_xiii (y : State) (p : Params) : ℚ := k_iia_xiii * IIa_effective y p * y iXIII
def r_iia_v (y : State) (p : Params) : ℚ := k_iia_v * IIa_effective y p * y iV
def r_iia_viii (y : State) (p : Params) : ℚ := k_iia_viii * IIa_effective y p * y iVIII
def r_iia_xi (y : State) (p : Params) : ℚ := k_iia_xi * IIa_effective y p * y iXI

/-- Line 259: `r_xa_v = k['xa_v'] * Xa * V` (raw `Xa`, not `Xa_effective`). -/
def r_xa_v (y : State) : ℚ := k_xa_v * y iXa * y iV
/-- Line 260: `r_xa_viii = k['xa_viii'] * Xa * VIII` (raw `Xa`). -/
def r_xa_viii (y : State) : ℚ := k_xa_viii * y iXa * y iVIII
/-- Line 263: `r_xa_ii_basal = k['xa_ii_basal'] * Xa * II` (raw `Xa`, not
`Xa_effective`). -/
def r_xa_ii_basal (y : State) : ℚ := k_xa_ii_basal * y iXa * y iII

def r_at_iia (y : State) (p : Params) : ℚ := k_at_iia * y iAT * y iIIa * p.at_factor
def r_at_xa (y : State) (p : Params) : ℚ := k_at_xa * y iAT * y iXa * p.at_factor
def r_at_ixa (y : State) (p : Params) : ℚ := k_at_ixa * y iAT * y iIXa * p.at_factor
def r_at_xia (y : State) (p : Params) : ℚ := k_at_xia * y iAT * y iXIa * p.at_factor
def r_tfpi_xa (y : State) : ℚ := k_tfpi_xa * y iTFPI * y iXa
def r_tfpi_tfviia (y : State) : ℚ := k_tfpi_tfviia * y iTFPI * y iTF_VIIa * y iXa

def r_iia_pc (y : State) : ℚ := k_iia_pc * y iIIa * y iPC
def r_apc_va (y : State) : ℚ := k_apc_va * y iAPC * y iVa
def r_apc_viiia (y : State) : ℚ := k_apc_viiia * y iAPC * y iVIIIa

/-- The derivative assignments of `derivatives` (lines 279-336), on a state
assumed already clamped.  The numpy code fills `dydt = np.zeros(n)` and
assigns each index once; `PS` (index 25) is never assigned and stays 0. -/
def derivCore (y : State) (p : Params) : State := fun i =>
  if i = iTF then -(r_tfviia_form y) + r_tfviia_diss y
  else if i = iVII then -(r_tfviia_form y) + r_tfviia_diss y
  else if i = iTF_VIIa then r_tfviia_form y - r_tfviia_diss y - r_tfpi_tfviia y
  else if i = iXII then -(r_xii_auto y)
  else if i = iXIIa then r_xii_auto y
  else if i = iXI then -(r_xiia_xi y) - r_iia_xi y p
  else if i = iXIa then r_xiia_xi y + r_iia_xi y p - r_at_xia y p
  else if i = iIX then -(r_tfviia_ix y) - r_xia_ix y
  else if i = iIXa then r_tfviia_ix y + r_xia_ix y - r_at_ixa y p
  else if i = iVIII then -(r_iia_viii y p) - r_xa_viii y
  else if i = iVIIIa then r_iia_viii y p + r_xa_viii y - r_apc_viiia y
  else if i = iX then -(r_tfviia_x y) - r_tenase_x y
  else if i = iXa then r_tfviia_x y + r_tenase_x y - r_at_xa y p - r_tfpi_xa y
  else if i = iV then -(r_iia_v y p) - r_xa_v y
  else if i = iVa then r_iia_v y p + r_xa_v y - r_apc_va y
  else if i = iII then -(r_ptase_ii y p) - r_xa_ii_basal y
  else if i = iIIa then r_ptase_ii y p + r_xa_ii_basal y - r_at_iia y p
  else if i = iFbg then -(r_iia_fbg y p)
  else if i = iFibrin then r_iia_fbg y p
  else if i = iXIII then -(r_iia_xiii y p)
  else if i = iXIIIa then r_iia_xiii y p
  else if i = iAT then -(r_at_iia y p + r_at_xa y p + r_at_ixa y p + r_at_xia y p)
  else if i = iTFPI then -(r_tfpi_xa y) - r_tfpi_tfviia y
  else if i = iPC then -(r_iia_pc y)
  else if i = iAPC then r_iia_pc y
  else 0

/-- `CoagulationSimulator.derivatives(t, y, params)` (lines 178-336): clamps
the incoming state to non-negative values (line 189), then computes all
rates and the per-species derivative vector.  The time argument `t` is
received but never read by the body. -/
def derivatives (_t : ℚ) (y : State) (p : Params) : State :=
  derivCore (clamp y) p

/-! ## Scenario resolution (`simulate`, lines 375-467) -/

/-- The scenario-specific entries of the `modifications` dict built by the
`if scenario == ...` chain of `simulate` (lines 376-461), as a lookup
function from species name to overriding concentration.  A scenario name
matching no branch contributes no modification (the Python chain has no
`else`), exactly as in the source.  Note `fviii_concentrate` assigns
`modifications['VIII']` twice (lines 419-420); the dict keeps the last
value 0.7, and likewise `fix_concentrate` keeps 90.0 (lines 424-425). -/
def scenarioModifications (scenario : String) : String → Option ℚ :=
  if scenario = "normal" then fun _ => none
  else if scenario = "hemophilia_a" then fun s => if s = "VIII" then some 0 else none
  else if scenario = "hemophilia_b" then fun s => if s = "IX" then some 0 else none
  else if scenario = "warfarin" then fun s =>
    if s ∈ ["II", "VII", "IX", "X", "PC"] then some (baselineOf s * (3/10)) else none
  else if scenario = "heparin" ∨ scenario = "heparin_ufh" then fun _ => none
  else if scenario = "heparin_lmwh" then fun _ => none
  else if scenario = "rivaroxaban" then fun _ => none
  else if scenario = "dabigatran" then fun _ => none
  else if scenario = "apixaban" then fun _ => none
  else if scenario = "fviii_concentrate" then fun s =>
    if s = "VIII" then some (7/10) else none
  else if scenario = "fix_concentrate" then fun s =>
    if s = "IX" then some 90 else none
  else if scenario = "pcc" then fun s =>
    if s = "II" then some (baselineOf "II" * (3/2))
    else if s = "VII" then some (baselineOf "VII" * 2)
    else if s = "IX" then some (baselineOf "IX" * (3/2))
    else if s = "X" then some (baselineOf "X" * (3/2))
    else none
  else if scenario = "ffp" then fun s =>
    if s ∈ ["II", "V", "VII", "VIII", "IX", "X", "XI", "Fbg"] then
      some (baselineOf s * (6/5))
    else none
  else if scenario = "dic" then fun s =>
    if s = "II" then some (baselineOf "II" * (3/10))
    else if s = "V" then some (baselineOf "V" * (1/5))
    else if s = "VIII" then some (baselineOf "VIII" * (1/5))
    else if s = "Fbg" then some (baselineOf "Fbg" * (1/5))
    else if s = "AT" then some (baselineOf "AT" * (3/10))
    else none
  else if scenario = "liver_disease" then fun s =>
    if s ∈ ["II", "VII", "IX", "X", "XI", "AT", "PC"] then some (baselineOf s * (2/5))
    else if s = "V" then some (baselineOf "V" * (1/2))
    else if s = "Fbg" then some (baselineOf "Fbg" * (3/5))
    else none
  else if scenario = "vwd_type1" then fun s =>
    if s = "VIII" then some (baselineOf "VIII" * (3/10)) else none
  else fun _ => none

/-- The `params` dict after the scenario chain of `simulate`: initialized
to the defaults at line 377 and overwritten only by the heparin and DOAC
branches (lines 393-414). -/
def resolveParams (scenario : String) : Params :=
  if scenario = "heparin" ∨ scenario = "heparin_ufh" then
    { defaultParams with at_factor := 100 }
  else if scenario = "heparin_lmwh" then
    { defaultParams with at_factor := 30, xa_inhibition := 1/5 }
  else if scenario = "rivaroxaban" then { defaultParams with xa_inhibition := 1/20 }
  else if scenario = "dabigatran" then { defaultParams with iia_inhibition := 1/20 }
  else if scenario = "apixaban" then { defaultParams with xa_inhibition := 2/25 }
  else defaultParams

/-- Line 464, `modifications['TF'] = tf_concentration`: the tissue-factor
trigger entry is written into the dict after the whole scenario chain, so
it overwrites any earlier value under the key `TF`. -/
def resolvedModifications (scenario : String) (tf_concentration : ℚ) :
    String → Option ℚ :=
  fun s => if s = "TF" then some tf_concentration else scenarioModifications scenario s

/-- `CoagulationSimulator.get_initial_state` (lines 154-176): fill the
vector from `initial_concentrations` by species index, then overwrite the
entries named in `modifications`.  Every species name is a key of
`initial_concentrations`, so entry `i` ends as the modification for the
species named at `i` when present, and its baseline otherwise. -/
def get_initial_state (mods : String → Option ℚ) : State :=
  fun i => (mods (speciesAt i)).getD (baselineOf (speciesAt i))

/-! ## The integration driver (`simulate`, lines 469-495) -/

/-- The result object returned by the external stiff solver
(`scipy.integrate.solve_ivp`, LSODA): sampled times `t`, sampled states
`y`, and the convergence flag `success`.  The solver itself is outside the
repository; `simulate` is modelled as parameterized over it. -/
structure SolverOutput where
  t : List ℚ
  y : List State
  success : Bool

/-- Modelled from the spec: the error taxonomy of §7 (`UnknownScenario`,
`IntegrationFailure`).  The source defines no error type and raises
neither; the type exists so that theorems can state whether `simulate`
fails. -/
inductive SimError where
  | unknownScenario
  | integrationFailure
deriving DecidableEq

/-- `SimulationResult` (lines 26-33, built at lines 490-495).  The Python
`concentrations` dict maps each species name to its sampled series
(`solution.y[idx]`); since `species_idx` is injective on the catalog it is
modelled index-keyed.  The Python `parameters` dict
`{'tf_concentration': ..., **params, **modifications}` is split into the
`tf_parameter`, `params` and `overrides` fields. -/
structure SimulationResult where
  time : List ℚ
  concentrations : Fin 26 → List ℚ
  scenario : String
  tf_parameter : ℚ
  params : Params
  overrides : String → Option ℚ

/-- `CoagulationSimulator.simulate` (lines 338-495): resolve the scenario
into modifications and modifier parameters, add the TF trigger, build the
initial state, hand the derivative function to the stiff solver, and wrap
the solver's output into a `SimulationResult`.  The source inspects no
attribute of the solver result other than `t` and `y` (it never reads
`solution.success` and raises no exception), so every path returns
`Except.ok`.  The fixed solver configuration (`t_span`, `t_eval`, method
LSODA, tolerances) belongs to the external solver call and is absorbed
into the `solver` argument. -/
def simulate (solver : (ℚ → State → State) → State → SolverOutput)
    (scenario : String) (tf_concentration : ℚ) :
    Except SimError SimulationResult :=
  let params := resolveParams scenario
  let mods := resolvedModifications scenario tf_concentration
  let y0 := get_initial_state mods
  let solution := solver (fun t y => derivatives t y params) y0
  Except.ok
    { time := solution.t
      concentrations := fun i => solution.y.map (fun st => st i)
      scenario := scenario
      tf_parameter := tf_concentration
      params := params
      overrides := mods }

/-! ## Theorems -/

/-- Claim C3, counterexample: the species catalog `SPECIES` has 26 entries
(`PS` included), not 25 as claimed. -/
theorem species_count_is_26_not_25 : SPECIES.length = 26 ∧ SPECIES.length ≠ 25 := by
  decide

/-- Claim C3 (amended): the species registry contains exactly 26 species;
the name-to-index mapping built in `__init__` is a bijection between the
26 names and the indices 0..25 (the catalog has no duplicate name, every
index carries a catalog name, and distinct indices carry distinct names). -/
theorem species_registry_is_26_bijection :
    SPECIES.length = 26 ∧ SPECIES.Nodup ∧
    (∀ i : Fin 26, speciesAt i ∈ SPECIES) ∧
    (∀ i j : Fin 26, speciesAt i = speciesAt j → i = j) := by
  decide

/-- Claim C7: the tissue-factor trigger override is written into the
modifications dict after every scenario branch, so for every scenario name
and trigger dose the initial TF concentration equals the trigger dose. -/
theorem tf_trigger_always_wins (scenario : String) (d : ℚ) :
    get_initial_state (resolvedModifications scenario d) iTF = d := rfl

/-- Claim C8: `derivatives` is a pure function of the state and the
modifier parameters; two calls with identical state and modifiers return
identical vectors regardless of the time arguments. -/
theorem derivatives_deterministic (t₁ t₂ : ℚ) (y : State) (p : Params) :
    derivatives t₁ y p = derivatives t₂ y p := rfl

/-- Claim C9: `derivatives` evaluates every rate on a non-negative clamped
working copy of the state: the clamped copy has no negative entry, and the
result on any state equals the result on its clamp (the caller's vector is
a read-only input of the pure function and is never written). -/
theorem derivatives_clamps_nonneg (t : ℚ) (y : State) (p : Params) :
    (∀ i, 0 ≤ clamp y i) ∧ derivatives t y p = derivatives t (clamp y) p := by
  constructor
  · intro i
    exact le_max_right _ _
  · unfold derivatives
    have h : clamp (clamp y) = clamp y := by
      funext i
      exact max_eq_left (le_max_right _ _)
    rw [h]

/-- Claim C10: the derivative vector conserves each precursor/product pair
Fbg/Fibrin, XII/XIIa, XIII/XIIIa and PC/APC exactly: the two components
sum to zero for every state and every modifiers record. -/
theorem pairwise_conservation (t : ℚ) (y : State) (p : Params) :
    derivatives t y p iFbg + derivatives t y p iFibrin = 0 ∧
    derivatives t y p iXII + derivatives t y p iXIIa = 0 ∧
    derivatives t y p iXIII + derivatives t y p iXIIIa = 0 ∧
    derivatives t y p iPC + derivatives t y p iAPC = 0 := by
  refine ⟨?_, ?_, ?_, ?_⟩ <;>
    simp [derivatives, derivCore, iTF, iVII, iTF_VIIa, iXII, iXIIa, iXI, iXIa,
      iIX, iIXa, iVIII, iVIIIa, iX, iXa, iV, iVa, iII, iIIa, iFbg, iFibrin,
      iXIII, iXIIIa, iAT, iTFPI, iPC, iAPC]

/-- Concrete state for the basal-thrombin counterexample: Xa = 1 nM and
prothrombin II = 1 nM, every other species 0 (so the prothrombinase term
vanishes because Va = 0). -/
def y4State : State := fun i => if i = iXa then 1 else if i = iII then 1 else 0

/-- Modifiers with `xa_inhibition = 1/20` (the rivaroxaban value). -/
def p4Params : Params := ⟨1, 1/20, 1⟩

/-- Claim C4, counterexample: with Xa = 1, II = 1, Va = 0 and
`xa_inhibition = 1/20`, the code's prothrombin derivative is
`-k_xa_ii_basal * Xa * II = -1/10000` (raw Xa), not the
`-k_xa_ii_basal * (Xa * xa_inhibition) * II = -1/200000` the claim implies
for the basal reaction. -/
theorem basal_thrombin_rate_ignores_xa_inhibition :
    derivatives 0 y4State p4Params iII = -(1/10000) ∧
    derivatives 0 y4State p4Params iII ≠
      -(k_xa_ii_basal * (y4State iXa * p4Params.xa_inhibition) * y4State iII) := by
  constructor <;>
    norm_num [derivatives, derivCore, clamp, max_def, y4State, p4Params, Fin.ext_iff,
      iTF, iVII, iTF_VIIa, iXII, iXIIa, iXI, iXIa, iIX, iIXa, iVIII, iVIIIa,
      iX, iXa, iV, iVa, iII, iIIa,
      r_ptase_ii, ptase_activity, Xa_effective, r_xa_ii_basal,
      k_ptase_ii, Km_ptase_ii, k_xa_ii_basal]

/-- Claim C4 (amended): the `xa_inhibition` modifier rescales the
effective Xa only inside the prothrombinase reaction; the basal
prothrombin-to-thrombin reaction uses the raw (clamped) Xa.  Stated as the
exact values of the II and IIa components of the derivative vector. -/
theorem xa_inhibition_prothrombinase_only (t : ℚ) (y : State) (p : Params) :
    derivatives t y p iII =
      -(k_ptase_ii * (clamp y iXa * p.xa_inhibition * clamp y iVa / (1 + clamp y iVa))
          * clamp y iII / (Km_ptase_ii + clamp y iII))
        - k_xa_ii_basal * clamp y iXa * clamp y iII ∧
    derivatives t y p iIIa =
      k_ptase_ii * (clamp y iXa * p.xa_inhibition * clamp y iVa / (1 + clamp y iVa))
          * clamp y iII / (Km_ptase_ii + clamp y iII)
        + k_xa_ii_basal * clamp y iXa * clamp y iII
        - k_at_iia * clamp y iAT * clamp y iIIa * p.at_factor := by
  constructor <;>
    simp [derivatives, derivCore, iTF, iVII, iTF_VIIa, iXII, iXIIa, iXI, iXIa,
      iIX, iIXa, iVIII, iVIIIa, iX, iXa, iV, iVa, iII, iIIa,
      r_ptase_ii, ptase_activity, Xa_effective, r_xa_ii_basal, r_at_iia]

/-- Concrete state for the fibrinogen-rate counterexample: thrombin
IIa = 1 nM and fibrinogen Fbg = 7200 nM (equal to its Km, so the substrate
saturation factor is exactly 1/2), every other species 0. -/
def y5State : State := fun i => if i = iIIa then 1 else if i = iFbg then 7200 else 0

/-- Claim C5, counterexample: at `y5State` the code's fibrinogen
derivative is `-k_iia_fbg * IIa * Fbg / (Km + Fbg) = -1/20`, with no
cofactor-saturation factor; no choice of a species of the state as the
cofactor `c` makes the claimed form
`-k * (IIa * c / (1 + c)) * Fbg / (Km + Fbg)` match it, because
`c / (1 + c) < 1` for every non-negative `c`. -/
theorem fibrinogen_rate_has_no_cofactor_form :
    derivatives 0 y5State defaultParams iFbg = -(1/20) ∧
    (∀ j : Fin 26, derivatives 0 y5State defaultParams iFbg ≠
      -(k_iia_fbg * (y5State iIIa * defaultParams.iia_inhibition * y5State j / (1 + y5State j))
        * y5State iFbg / (Km_iia_fbg + y5State iFbg))) := by
  constructor
  · norm_num [derivatives, derivCore, clamp, max_def, y5State, defaultParams, Fin.ext_iff,
      iTF, iVII, iTF_VIIa, iXII, iXIIa, iXI, iXIa, iIX, iIXa, iVIII, iVIIIa,
      iX, iXa, iV, iVa, iII, iIIa, iFbg,
      r_iia_fbg, IIa_effective, k_iia_fbg, Km_iia_fbg]
  · intro j
    fin_cases j <;>
      norm_num [derivatives, derivCore, clamp, max_def, y5State, defaultParams, Fin.ext_iff,
        iTF, iVII, iTF_VIIa, iXII, iXIIa, iXI, iXIa, iIX, iIXa, iVIII, iVIIIa,
        iX, iXa, iV, iVa, iII, iIIa, iFbg,
        r_iia_fbg, IIa_effective, k_iia_fbg, Km_iia_fbg]

/-- Claim C5 (amended): the intrinsic tenase reaction and the
prothrombinase reaction follow the cofactor-saturating Michaelis-Menten
form (cofactors VIIIa and Va respectively, the latter with effective
enzyme Xa × xa_inhibition); thrombin cleaving fibrinogen follows plain
Michaelis-Menten kinetics in the substrate with effective enzyme
IIa × iia_inhibition and no cofactor-saturation factor.  Stated as the
exact values of the X, II and Fbg components of the derivative vector. -/
theorem saturating_reaction_forms (t : ℚ) (y : State) (p : Params) :
    derivatives t y p iX =
      -(k_tfviia_x * clamp y iTF_VIIa * clamp y iX)
        - k_tenase_x * (clamp y iIXa * clamp y iVIIIa / (1 + clamp y iVIIIa))
            * clamp y iX / (Km_tenase_x + clamp y iX) ∧
    derivatives t y p iII =
      -(k_ptase_ii * (clamp y iXa * p.xa_inhibition * clamp y iVa / (1 + clamp y iVa))
          * clamp y iII / (Km_ptase_ii + clamp y iII))
        - k_xa_ii_basal * clamp y iXa * clamp y iII ∧
    derivatives t y p iFbg =
      -(k_iia_fbg * (clamp y iIIa * p.iia_inhibition) * clamp y iFbg
          / (Km_iia_fbg + clamp y iFbg)) := by
  refine ⟨?_, ?_, ?_⟩ <;>
    simp [derivatives, derivCore, iTF, iVII, iTF_VIIa, iXII, iXIIa, iXI, iXIa,
      iIX, iIXa, iVIII, iVIIIa, iX, iXa, iV, iVa, iII, iIIa, iFbg,
      r_tfviia_x, r_tenase_x, tenase_activity, r_ptase_ii, ptase_activity,
      Xa_effective, r_xa_ii_basal, r_iia_fbg, IIa_effective]

/-! ## Helper lemmas: names of the indices used below (each by direct
computation of `SPECIES`). -/

lemma speciesAt_iII : speciesAt iII = "II" := rfl
lemma speciesAt_iV : speciesAt iV = "V" := rfl
lemma speciesAt_iVII : speciesAt iVII = "VII" := rfl
lemma speciesAt_iVIII : speciesAt iVIII = "VIII" := rfl
lemma speciesAt_iIX : speciesAt iIX = "IX" := rfl
lemma speciesAt_iX : speciesAt iX = "X" := rfl
lemma speciesAt_iXI : speciesAt iXI = "XI" := rfl
lemma speciesAt_iFbg : speciesAt iFbg = "Fbg" := rfl

/-- Claim C6, counterexample: under `fviii_concentrate` the resolved
initial factor VIII concentration is exactly the physiological baseline
0.7 nM (the branch writes 0.0 then 0.7 into the same dict key), so it is
not strictly greater than the baseline. -/
theorem fviii_concentrate_equals_baseline :
    get_initial_state (resolvedModifications "fviii_concentrate" 25) iVIII
      = baselineOf "VIII" ∧
    ¬ (baselineOf "VIII" <
        get_initial_state (resolvedModifications "fviii_concentrate" 25) iVIII) := by
  have h : get_initial_state (resolvedModifications "fviii_concentrate" 25) iVIII
      = 7/10 := rfl
  have hb : baselineOf "VIII" = 7/10 := rfl
  rw [h, hb]
  exact ⟨rfl, lt_irrefl _⟩

/-- Claim C6 (amended): the `pcc` and `ffp` scenarios set every affected
factor strictly above its physiological baseline, while the
`fviii_concentrate` and `fix_concentrate` scenarios set the affected
factor exactly equal to its baseline (they restore the normal level, not
exceed it).  `d` is the tissue-factor trigger dose, which touches none of
these factors. -/
theorem replacement_scenarios_vs_baseline (d : ℚ) :
    baselineOf "II" < get_initial_state (resolvedModifications "pcc" d) iII ∧
    baselineOf "VII" < get_initial_state (resolvedModifications "pcc" d) iVII ∧
    baselineOf "IX" < get_initial_state (resolvedModifications "pcc" d) iIX ∧
    baselineOf "X" < get_initial_state (resolvedModifications "pcc" d) iX ∧
    baselineOf "II" < get_initial_state (resolvedModifications "ffp" d) iII ∧
    baselineOf "V" < get_initial_state (resolvedModifications "ffp" d) iV ∧
    baselineOf "VII" < get_initial_state (resolvedModifications "ffp" d) iVII ∧
    baselineOf "VIII" < get_initial_state (resolvedModifications "ffp" d) iVIII ∧
    baselineOf "IX" < get_initial_state (resolvedModifications "ffp" d) iIX ∧
    baselineOf "X" < get_initial_state (resolvedModifications "ffp" d) iX ∧
    baselineOf "XI" < get_initial_state (resolvedModifications "ffp" d) iXI ∧
    baselineOf "Fbg" < get_initial_state (resolvedModifications "ffp" d) iFbg ∧
    get_initial_state (resolvedModifications "fviii_concentrate" d) iVIII
      = baselineOf "VIII" ∧
    get_initial_state (resolvedModifications "fix_concentrate" d) iIX
      = baselineOf "IX" := by
  have hII : baselineOf "II" = 1400 := rfl
  have hV : baselineOf "V" = 20 := rfl
  have hVII : baselineOf "VII" = 10 := rfl
  have hVIII : baselineOf "VIII" = 7/10 := rfl
  have hIX : baselineOf "IX" = 90 := rfl
  have hX : baselineOf "X" = 170 := rfl
  have hXI : baselineOf "XI" = 30 := rfl
  have hFbg : baselineOf "Fbg" = 9000 := rfl
  refine ⟨?_, ?_, ?_, ?_, ?_, ?_, ?_, ?_, ?_, ?_, ?_, ?_, ?_, ?_⟩
  · rw [show get_initial_state (resolvedModifications "pcc" d) iII
        = baselineOf "II" * (3/2) from rfl, hII]
    norm_num
  · rw [show get_initial_state (resolvedModifications "pcc" d) iVII
        = baselineOf "VII" * 2 from rfl, hVII]
    norm_num
  · rw [show get_initial_state (resolvedModifications "pcc" d) iIX
        = baselineOf "IX" * (3/2) from rfl, hIX]
    norm_num
  · rw [show get_initial_state (resolvedModifications "pcc" d) iX
        = baselineOf "X" * (3/2) from rfl, hX]
    norm_num
  · rw [show get_initial_state (resolvedModifications "ffp" d) iII
        = baselineOf "II" * (6/5) from rfl, hII]
    norm_num
  · rw [show get_initial_state (resolvedModifications "ffp" d) iV
        = baselineOf "V" * (6/5) from rfl, hV]
    norm_num
  · rw [show get_initial_state (resolvedModifications "ffp" d) iVII
        = baselineOf "VII" * (6/5) from rfl, hVII]
    norm_num
  · rw [show get_initial_state (resolvedModifications "ffp" d) iVIII
        = baselineOf "VIII" * (6/5) from rfl, hVIII]
    norm_num
  · rw [show get_initial_state (resolvedModifications "ffp" d) iIX
        = baselineOf "IX" * (6/5) from rfl, hIX]
    norm_num
  · rw [show get_initial_state (resolvedModifications "ffp" d) iX
        = baselineOf "X" * (6/5) from rfl, hX]
    norm_num
  · rw [show get_initial_state (resolvedModifications "ffp" d) iXI
        = baselineOf "XI" * (6/5) from rfl, hXI]
    norm_num
  · rw [show get_initial_state (resolvedModifications "ffp" d) iFbg
        = baselineOf "Fbg" * (6/5) from rfl, hFbg]
    norm_num
  · rw [hVIII]
    rfl
  · rw [hIX]
    rfl

/-- The scenario identifiers with a branch in `simulate` (docstring lines
354-370 plus the `heparin` alias accepted at line 393). -/
def KNOWN_SCENARIOS : List String :=
  ["normal", "hemophilia_a", "hemophilia_b", "warfarin", "heparin", "heparin_ufh",
   "heparin_lmwh", "rivaroxaban", "dabigatran", "apixaban", "fviii_concentrate",
   "fix_concentrate", "pcc", "ffp", "dic", "liver_disease", "vwd_type1"]

/-- A scenario name matching no branch of the chain leaves the
modifications dict exactly as the `normal` branch does (empty). -/
lemma scenarioModifications_unknown {s : String} (hs : s ∉ KNOWN_SCENARIOS) :
    scenarioModifications s = scenarioModifications "normal" := by
  simp only [KNOWN_SCENARIOS, List.mem_cons, List.not_mem_nil, or_false,
    not_or] at hs
  obtain ⟨h1, h2, h3, h4, h5, h6, h7, h8, h9, h10, h11, h12, h13, h14, h15,
    h16, h17⟩ := hs
  simp [scenarioModifications, h1, h2, h3, h4, h5, h6, h7, h8, h9, h10, h11,
    h12, h13, h14, h15, h16, h17]

/-- A scenario name matching no branch leaves the modifier parameters at
their defaults, as the `normal` branch does. -/
lemma resolveParams_unknown {s : String} (hs : s ∉ KNOWN_SCENARIOS) :
    resolveParams s = resolveParams "normal" := by
  simp only [KNOWN_SCENARIOS, List.mem_cons, List.not_mem_nil, or_false,
    not_or] at hs
  obtain ⟨h1, h2, h3, h4, h5, h6, h7, h8, h9, h10, h11, h12, h13, h14, h15,
    h16, h17⟩ := hs
  simp [resolveParams, h1, h2, h3, h4, h5, h6, h7, h8, h9, h10, h11,
    h12, h13, h14, h15, h16, h17]

/-- A concrete solver stand-in returning a single sample at t = 0. -/
def demoSolver : (ℚ → State → State) → State → SolverOutput :=
  fun _ y0 => ⟨[0], [y0], true⟩

/-- Claim C1, counterexample: at the unknown scenario name `bogus`,
`simulate` does not fail; it returns an ok result whose time samples,
concentration series and modifier parameters are identical to those of the
explicit `normal` scenario under the same trigger dose and solver. -/
theorem unknown_scenario_returns_normal_result :
    (simulate demoSolver "bogus" 25).isOk = true ∧
    (simulate demoSolver "bogus" 25).toOption.map SimulationResult.time
      = (simulate demoSolver "normal" 25).toOption.map SimulationResult.time ∧
    (simulate demoSolver "bogus" 25).toOption.map SimulationResult.concentrations
      = (simulate demoSolver "normal" 25).toOption.map SimulationResult.concentrations ∧
    (simulate demoSolver "bogus" 25).toOption.map SimulationResult.params
      = (simulate demoSolver "normal" 25).toOption.map SimulationResult.params :=
  ⟨rfl, rfl, rfl, rfl⟩

/-- Claim C1 (amended): for every scenario name outside the supported
catalog, `simulate` does not fail with any error; the string-keyed chain
matches no branch, no override and no modifier is applied, and the
returned result's trajectory, parameters and overrides are exactly those
of the explicit `normal` scenario (only the scenario label differs). -/
theorem unknown_scenario_behaves_as_normal (s : String)
    (hs : s ∉ KNOWN_SCENARIOS)
    (solver : (ℚ → State → State) → State → SolverOutput) (d : ℚ) :
    ∃ r rn : SimulationResult,
      simulate solver s d = Except.ok r ∧
      simulate solver "normal" d = Except.ok rn ∧
      r.time = rn.time ∧ r.concentrations = rn.concentrations ∧
      r.params = rn.params ∧ r.overrides = rn.overrides := by
  have hm : scenarioModifications s = scenarioModifications "normal" :=
    scenarioModifications_unknown hs
  have hp : resolveParams s = resolveParams "normal" := resolveParams_unknown hs
  have hr : resolvedModifications s d = resolvedModifications "normal" d := by
    funext nm
    simp only [resolvedModifications]
    rw [hm]
  refine ⟨_, _, rfl, rfl, ?_, ?_, ?_, ?_⟩ <;> simp [simulate, hr, hp]

/-- Witness for the amended claim C1 at the concrete unknown name
`bogus`, trigger dose 25 and the concrete solver stand-in. -/
theorem unknown_scenario_behaves_as_normal_witness :
    ∃ r rn : SimulationResult,
      simulate demoSolver "bogus" 25 = Except.ok r ∧
      simulate demoSolver "normal" 25 = Except.ok rn ∧
      r.time = rn.time ∧ r.concentrations = rn.concentrations ∧
      r.params = rn.params ∧ r.overrides = rn.overrides :=
  unknown_scenario_behaves_as_normal "bogus" (by decide) demoSolver 25

/-- A concrete solver stand-in reporting non-convergence: `success` is
false and the sample arrays are empty (truncated), as scipy returns when
LSODA fails. -/
def failedSolver : (ℚ → State → State) → State → SolverOutput :=
  fun _ _ => ⟨[], [], false⟩

/-- Claim C2, counterexample: when the solver reports failure, `simulate`
does not fail with IntegrationFailure; it returns an ok result built from
the truncated solver output (here an empty trajectory). -/
theorem failed_solver_still_returns_result :
    (simulate failedSolver "normal" 25).isOk = true ∧
    simulate failedSolver "normal" 25 ≠ Except.error SimError.integrationFailure ∧
    (simulate failedSolver "normal" 25).toOption.map SimulationResult.time
      = some [] := by
  refine ⟨rfl, ?_, rfl⟩
  intro h
  exact Except.noConfusion h

/-- Claim C2 (amended): `simulate` never inspects the solver's convergence
flag: for every solver it returns an ok result, and the result does not
change when the reported `success` flag of a solver output is flipped to
true.  A non-converged run is therefore wrapped silently into a (possibly
partial) `SimulationResult` instead of failing. -/
theorem integration_ignores_success_flag
    (solver : (ℚ → State → State) → State → SolverOutput)
    (out : SolverOutput) (s : String) (d : ℚ) :
    (simulate solver s d).isOk = true ∧
    simulate (fun _ _ => out) s d
      = simulate (fun _ _ => { out with success := true }) s d :=
  ⟨rfl, rfl⟩

end HemoSim
